import Mathlib

/- Batteries marks the `Rat` field operations `@[irreducible]`; restore
reducibility so that concrete runs of the model evaluate by `decide`. -/
attribute [local semireducible] Rat.add Rat.sub Rat.mul Rat.inv Rat.ofScientific

/-!
Verification of the FlightAxis SITL connector
(`libraries/SITL/SIM_FlightAxis.cpp`).

The development shallowly embeds the connector's pure computational content
over `ℚ` (the C code's `float`/`double` arithmetic, modelled exactly over the
rationals) and `List Char` (NUL-free C string contents):

* `parse_reply` — the primitive SOAP reply scanner (`FlightAxis::parse_reply`);
* `header_scan`, `recv_loop`, `soap_request_rx` — the framed-reception phase
  of `FlightAxis::soap_request`;
* `scaled_servos`, `exchange_data` — the actuator mapper and per-tick
  exchange (`FlightAxis::exchange_data`);
* `update` — the tick loop (`FlightAxis::update`).

External collaborators (libc string/number routines, the `AP_Math` vector and
matrix helpers, the network transport) are modelled by explicit definitions or
taken as parameters, as noted on each definition.  Network receptions are
passed in as explicit byte-chunk scripts; the remote simulator's replies are
passed in as `Option` values (a `none` models a failed exchange).
-/

/-! ## AP_Math collaborators (vectors, matrices, clamping) -/

/-- `Vector3f` from AP_Math, with exact rational components. -/
structure Vector3f where
  x : ℚ
  y : ℚ
  z : ℚ
deriving DecidableEq

/-- Componentwise vector subtraction (AP_Math `Vector3::operator-`). -/
def Vector3f.sub (a b : Vector3f) : Vector3f := ⟨a.x - b.x, a.y - b.y, a.z - b.z⟩

/-- Vector scaled by a scalar (AP_Math `Vector3::operator*`). -/
def Vector3f.smul (a : Vector3f) (s : ℚ) : Vector3f := ⟨a.x * s, a.y * s, a.z * s⟩

/-- Vector divided componentwise by a scalar (AP_Math `Vector3::operator/`).
Division by zero follows the total `ℚ` convention `q / 0 = 0`. -/
def Vector3f.sdiv (a : Vector3f) (s : ℚ) : Vector3f := ⟨a.x / s, a.y / s, a.z / s⟩

/-- AP_Math `Vector3::is_zero`: all three components compare equal to zero. -/
def Vector3f.is_zero (v : Vector3f) : Bool :=
  decide (v.x = 0) && decide (v.y = 0) && decide (v.z = 0)

/-- Row-major 3×3 matrix, `Matrix3f` from AP_Math (rows `a`, `b`, `c`). -/
structure Matrix3f where
  a : Vector3f
  b : Vector3f
  c : Vector3f
deriving DecidableEq

/-- AP_Math `Matrix3::transposed`. -/
def Matrix3f.transposed (m : Matrix3f) : Matrix3f :=
  ⟨⟨m.a.x, m.b.x, m.c.x⟩, ⟨m.a.y, m.b.y, m.c.y⟩, ⟨m.a.z, m.b.z, m.c.z⟩⟩

/-- AP_Math `Matrix3::operator*(Vector3)`: rows dotted with the vector. -/
def Matrix3f.mulv (m : Matrix3f) (v : Vector3f) : Vector3f :=
  ⟨m.a.x * v.x + m.a.y * v.y + m.a.z * v.z,
   m.b.x * v.x + m.b.y * v.y + m.b.z * v.z,
   m.c.x * v.x + m.c.y * v.y + m.c.z * v.z⟩

/-- AP_Math `constrain_float`: clamp `v` into `[lo, hi]`. -/
def constrain_float (v lo hi : ℚ) : ℚ :=
  if v < lo then lo else if hi < v then hi else v

/-- AP_Math `GRAVITY_MSS` (9.80665 m/s²). -/
def GRAVITY_MSS : ℚ := 9.80665

/-! ## libc string collaborators

C strings are modelled as the `List Char` of their bytes before the NUL
terminator (the FlightAxis replies contain no interior NUL). -/

/-- `true` when `needle` is an initial segment of `hay` (the per-position
comparison done by `strstr`). -/
def leadsWith : List Char → List Char → Bool
  | [], _ => true
  | _ :: _, [] => false
  | a :: as, b :: bs => a = b && leadsWith as bs

/-- Scan tail of `strstr`: first index `≥ i` at which `needle` occurs. -/
def strstrFrom (needle : List Char) : List Char → Nat → Option Nat
  | [], i => if leadsWith needle [] then some i else none
  | c :: rest, i =>
      if leadsWith needle (c :: rest) then some i
      else strstrFrom needle rest (i + 1)

/-- libc `strstr`, returning the offset of the first occurrence of `needle`
in `hay` (instead of a pointer), or `none`. -/
def strstr (hay needle : List Char) : Option Nat := strstrFrom needle hay 0

/-- ASCII decimal digit test. -/
def isDigitC (c : Char) : Bool := 48 ≤ c.toNat && c.toNat ≤ 57

/-- libc `isspace` (space, and horizontal/vertical tab, LF, CR, FF). -/
def isSpaceC (c : Char) : Bool := c.toNat = 32 || (9 ≤ c.toNat && 13 ≥ c.toNat)

/-- Value of a (most-significant-first) digit string. -/
def digitsVal (l : List Char) : ℕ := l.foldl (fun a c => a * 10 + (c.toNat - 48)) 0

/-- `10 ^ n` over `ℚ` by plain recursion (keeps kernel evaluation possible). -/
def qpow10 : ℕ → ℚ
  | 0 => 1
  | n + 1 => qpow10 n * 10

/-- `10 ^ e` for a signed exponent. -/
def pow10z (e : ℤ) : ℚ := if 0 ≤ e then qpow10 e.toNat else 1 / qpow10 (-e).toNat

/-- Exponent part accepted by `atof` at the end of a mantissa: `e`/`E`,
an optional sign, and at least one digit; anything else contributes `10^0`. -/
def atof_exp (s : List Char) : ℤ :=
  match s with
  | [] => 0
  | c :: rest =>
    if c.toNat = 101 || c.toNat = 69 then
      match rest with
      | [] => 0
      | d :: rest2 =>
        if isDigitC d then (digitsVal (rest.takeWhile isDigitC) : ℤ)
        else if d.toNat = 45 then
          match rest2 with
          | [] => 0
          | e :: _ =>
            if isDigitC e then -(digitsVal (rest2.takeWhile isDigitC) : ℤ) else 0
        else if d.toNat = 43 then
          match rest2 with
          | [] => 0
          | e :: _ =>
            if isDigitC e then (digitsVal (rest2.takeWhile isDigitC) : ℤ) else 0
        else 0
    else 0

/-- libc `atof` (the "permissive decimal-float textual parse"): skip leading
whitespace, optional sign, integer digits, optional `.` and fraction digits,
optional exponent; an input with no digits parses as `0`.  Exact over `ℚ`. -/
def atof (s : List Char) : ℚ :=
  let s1 := s.dropWhile isSpaceC
  let sgn : ℚ :=
    match s1 with
    | c :: _ => if c.toNat = 45 then -1 else 1
    | [] => 1
  let s2 :=
    match s1 with
    | c :: rest => if c.toNat = 45 || c.toNat = 43 then rest else s1
    | [] => s1
  let d1 := s2.takeWhile isDigitC
  let s3 := s2.dropWhile isDigitC
  let d2 :=
    match s3 with
    | c :: rest => if c.toNat = 46 then rest.takeWhile isDigitC else []
    | [] => []
  let s4 :=
    match s3 with
    | c :: rest => if c.toNat = 46 then rest.dropWhile isDigitC else s3
    | [] => s3
  let mant : ℚ := (digitsVal d1 : ℚ) + (digitsVal d2 : ℚ) / qpow10 d2.length
  sgn * mant * pow10z (atof_exp s4)

/-- libc `strtoul` with base 10: skip whitespace, optional sign, digits;
a value beyond `ULONG_MAX` clamps to `ULONG_MAX`, and a `-` sign wraps the
value in 64-bit unsigned arithmetic. -/
def strtoul (s : List Char) : ℕ :=
  let s1 := s.dropWhile isSpaceC
  let neg : Bool :=
    match s1 with
    | c :: _ => c.toNat = 45
    | [] => false
  let s2 :=
    match s1 with
    | c :: rest => if c.toNat = 45 || c.toNat = 43 then rest else s1
    | [] => s1
  let v := digitsVal (s2.takeWhile isDigitC)
  if 2 ^ 64 - 1 < v then 2 ^ 64 - 1
  else if neg then (2 ^ 64 - v) % 2 ^ 64 else v

/-! ## The reply field parser (`FlightAxis::parse_reply`, lines 55–67)

The key table lives in `SIM_FlightAxis.h`, which is not part of the sources;
per the spec it is an ordered sequence of `(key, destination)` pairs fixed at
construction, so the parser is embedded over an arbitrary ordered key list
and returns the values written to the destinations, in table order.

The C loop is, for each key: `p = strstr(reply, key)`; if `p == nullptr` it
only prints a diagnostic — and then still executes `p += strlen(key)+1;
keytable[i].ref = atof(p); reply = p;`.  On the missing-key path `p` is the
null pointer plus `strlen(key)+1`, and `atof(p)` reads from that invalid
address; likewise, when the key occurrence ends exactly at the terminator,
`p` points one past the end of the allocation.  Both out-of-bounds reads are
modelled as `none`; `some vs` is the in-bounds behaviour with `vs` the values
stored into the destinations. -/

def parse_reply (keys : List (List Char)) (reply : List Char) : Option (List ℚ) :=
  match keys with
  | [] => some []
  | k :: ks =>
    match strstr reply k with
    | none => none
    | some i =>
      if reply.length < i + k.length + 1 then none
      else
        let p := reply.drop (i + k.length + 1)
        match parse_reply ks p with
        | none => none
        | some vs => some (atof p :: vs)

/-- The literal hypothesis of the round-trip parsing claim: the reply
(suffix) contains each key of the table, in table order, each immediately
followed by a one-character delimiter and text whose numeric value (as read
by the permissive parse) is the key's value. -/
inductive ContainsOrdered : List (List Char) → List Char → List ℚ → Prop
  | nil : ∀ s, ContainsOrdered [] s []
  | cons : ∀ (k : List Char) (ks : List (List Char)) (pre : List Char) (d : Char)
      (rest : List Char) (v : ℚ) (vs : List ℚ),
      atof rest = v →
      ContainsOrdered ks rest vs →
      ContainsOrdered (k :: ks) (pre ++ k ++ d :: rest) (v :: vs)

/-- Strengthening of `ContainsOrdered` under which the scanner is correct:
additionally, each key's designated occurrence is the *first* occurrence of
that key at or after the scanner's current position (which sits just past the
previous key and its delimiter). -/
inductive GoodReply : List (List Char) → List Char → List ℚ → Prop
  | nil : ∀ s, GoodReply [] s []
  | cons : ∀ (k : List Char) (ks : List (List Char)) (pre : List Char) (d : Char)
      (rest : List Char) (v : ℚ) (vs : List ℚ),
      strstr (pre ++ k ++ d :: rest) k = some pre.length →
      atof rest = v →
      GoodReply ks rest vs →
      GoodReply (k :: ks) (pre ++ k ++ d :: rest) (v :: vs)

def keyA : List Char := "A".toList

def keyB : List Char := "B".toList

def replyGood : List Char := "<A>1.5<B>-2.25".toList

def replyStray : List Char := "A:1 Bx B:2".toList

def replyNoKey : List Char := "xyz".toList

/-! ## Framed reception (`FlightAxis::soap_request`, lines 105–141)

The request-building and send phase has no observable effect on the claims;
the reception phase is embedded over the bytes the network delivers: `first`
is what is available to the first `recv` (timeout 1000 ms), and `conts` is
the script of chunks returned by the continuation `recv`s (timeout 100 ms),
where an empty chunk models a non-positive `recv` result.  The 10000-byte
receive buffer admits at most `sizeof(reply)-1 = 9999` content bytes, since
every `recv` is bounded to preserve the NUL terminator. -/

def MAXR : ℕ := 10000

def CONTENT_KEY : List Char := "Content-Length: ".toList

def SEP : List Char := "\r\n\r\n".toList

/-- The `while (ret < expected_length)` continuation loop (lines 133–139).
Each iteration receives the next scripted chunk, truncated to the remaining
buffer space `sizeof(reply)-(1+ret)`; a non-positive receive (empty chunk, or
an exhausted script) fails. -/
def recv_loop (expected : ℕ) : List (List Char) → List Char → Option (List Char)
  | chunks, buf =>
    if expected ≤ buf.length then some buf
    else
      match chunks with
      | [] => none
      | c :: cs =>
        let c2 := c.take (MAXR - 1 - buf.length)
        if c2.length = 0 then none else recv_loop expected cs (buf ++ c2)

/-- Largest byte count ever held in the receive buffer during `recv_loop`
(parallel recursion to `recv_loop`; the buffer only grows). -/
def recv_loop_peak (expected : ℕ) : List (List Char) → List Char → ℕ
  | chunks, buf =>
    if expected ≤ buf.length then buf.length
    else
      match chunks with
      | [] => buf.length
      | c :: cs =>
        let c2 := c.take (MAXR - 1 - buf.length)
        if c2.length = 0 then buf.length else recv_loop_peak expected cs (buf ++ c2)

/-- Header stage of the reception (lines 112–128): find `Content-Length: `,
read the declared length with `strtoul` (truncated to `uint32_t`), find the
blank-line separator searching from the length header, and compute
`expected_length = content_length + (body - reply)` in 32-bit arithmetic. -/
def header_scan (r0 : List Char) : Option ℕ :=
  match strstr r0 CONTENT_KEY with
  | none => none
  | some i =>
    let p := r0.drop i
    let content_length := strtoul (p.drop 16) % 2 ^ 32
    match strstr p SEP with
    | none => none
    | some j => some ((content_length + (i + j + 4)) % 2 ^ 32)

/-- Reception phase of `FlightAxis::soap_request`: first `recv` (bounded to
9999 bytes; nothing received fails), header scan, the
`expected_length >= sizeof(reply)` rejection (line 129), then the
continuation loop.  `none` is the `return nullptr` of the C code. -/
def soap_request_rx (first : List Char) (conts : List (List Char)) : Option (List Char) :=
  let r0 := first.take (MAXR - 1)
  if r0.length = 0 then none
  else
    match header_scan r0 with
    | none => none
    | some expected => if MAXR ≤ expected then none else recv_loop expected conts r0

def wHeader : List Char := "A\r\nContent-Length: 5\r\n\r\nworld".toList

def ceHeader : List Char := "A\r\nContent-Length: 9973\r\n\r\n".toList

def wBody1 : List Char := "wo".toList

def wBody2 : List Char := "rld".toList

def wHeaderOnly : List Char := "A\r\nContent-Length: 5\r\n\r\n".toList

/-! ## Actuator mapper and per-tick exchange (`FlightAxis::exchange_data`) -/

/-- The eight raw actuator pulse values of one tick (`input.servos[0..7]`),
and also the eight scaled channel values sent to the remote simulator. -/
structure Servos8 where
  c0 : ℚ
  c1 : ℚ
  c2 : ℚ
  c3 : ℚ
  c4 : ℚ
  c5 : ℚ
  c6 : ℚ
  c7 : ℚ
deriving DecidableEq

/-- Normalization of lines 167–170: `(input.servos[i] - 1000) / 1000.0f`. -/
def normalize_servos (p : Servos8) : Servos8 :=
  ⟨(p.c0 - 1000) / 1000, (p.c1 - 1000) / 1000, (p.c2 - 1000) / 1000,
   (p.c3 - 1000) / 1000, (p.c4 - 1000) / 1000, (p.c5 - 1000) / 1000,
   (p.c6 - 1000) / 1000, (p.c7 - 1000) / 1000⟩

/-- The `rev4_servos` block swap of lines 172–178: first four and last four
scaled values exchanged as whole blocks. -/
def rev4_swap (s : Servos8) : Servos8 :=
  ⟨s.c4, s.c5, s.c6, s.c7, s.c0, s.c1, s.c2, s.c3⟩

/-- The `heli_demix` swashplate demix of lines 180–191. -/
def heli_demix_mix (s : Servos8) : Servos8 :=
  let swash1 := s.c0
  let swash2 := s.c1
  let swash3 := s.c2
  let roll_rate := swash1 - swash2
  let pitch_rate := -((swash1 + swash2) / 2 - swash3)
  { s with
    c0 := constrain_float (roll_rate + 0.5) 0 1,
    c1 := constrain_float (pitch_rate + 0.5) 0 1 }

/-- The complete actuator mapping of lines 167–191: normalize, optionally
swap blocks (`rev4`), optionally demix the swashplate (`heli`). -/
def scaled_servos (rev4 heli : Bool) (p : Servos8) : Servos8 :=
  let s := normalize_servos p
  let s := if rev4 then rev4_swap s else s
  if heli then heli_demix_mix s else s

/-- Modelled from the spec: the Aircraft State Snapshot — the destination
slots of the key table declared in `SIM_FlightAxis.h` (a header that is not
among the sources), restricted to the destinations the tick loop reads. -/
structure Snapshot where
  m_roll_DEG : ℚ
  m_inclination_DEG : ℚ
  m_azimuth_DEG : ℚ
  m_rollRate_DEGpSEC : ℚ
  m_pitchRate_DEGpSEC : ℚ
  m_yawRate_DEGpSEC : ℚ
  m_velocityWorldU_MPS : ℚ
  m_velocityWorldV_MPS : ℚ
  m_velocityWorldW_MPS : ℚ
  m_aircraftPositionX_MTR : ℚ
  m_aircraftPositionY_MTR : ℚ
  m_altitudeAGL_MTR : ℚ
  m_airspeed_MPS : ℚ
  m_batteryVoltage_VOLTS : ℚ
  m_batteryCurrentDraw_AMPS : ℚ
  m_heliMainRotorRPM : ℚ
  m_propRPM : ℚ
deriving DecidableEq

/-- The connector's mutable state: the Snapshot destinations, the consumer's
kinematic fields inherited from `Aircraft`, the session latch, the position
origin and the time base. -/
structure FlightAxisSt where
  state : Snapshot
  dcm : Matrix3f
  gyro : Vector3f
  velocity_ef : Vector3f
  position : Vector3f
  position_offset : Vector3f
  accel_body : Vector3f
  airspeed : ℚ
  battery_voltage : ℚ
  battery_current : ℚ
  rpm1 : ℚ
  time_now_us : ℚ
  last_time_us : ℚ
  last_frame_count_us : ℚ
  target_speedup : ℚ
  frame_counter : ℕ
  controller_started : Bool
  heli_demix : Bool
  rev4_servos : Bool
deriving DecidableEq

/-- One SOAP request issued by `exchange_data`: the two administrative
bootstrap actions, or an `ExchangeData` action carrying the eight scaled
channel values. -/
inductive SoapReq where
  | restore : SoapReq
  | inject : SoapReq
  | exchange : Servos8 → SoapReq
deriving DecidableEq

/-- The externally supplied events of one tick: the discarded bodies of the
two bootstrap requests (when issued), the outcome of the `ExchangeData`
round-trip — `some snap` for a reply parsed into the Snapshot destinations,
`none` for a failed exchange — the tick's raw servo pulses, and the wall
clock observed by `update`. -/
structure TickIn where
  restore_reply : Option (List Char)
  inject_reply : Option (List Char)
  data_reply : Option Snapshot
  servos : Servos8
  now : ℚ

/-- `FlightAxis::exchange_data` (lines 145–226): on the first call issue the
two administrative requests (their reply bodies `t.restore_reply` and
`t.inject_reply` are freed unread, so the latch is set regardless of their
outcome), map the servos, issue `ExchangeData`, and overwrite the Snapshot
destinations only when a reply body arrived.  Returns the new state and the
requests issued. -/
def exchange_data (t : TickIn) (s : FlightAxisSt) : FlightAxisSt × List SoapReq :=
  let reqs : List SoapReq :=
    if s.controller_started then [] else [SoapReq.restore, SoapReq.inject]
  let s1 := { s with controller_started := true }
  let vals := scaled_servos s.rev4_servos s.heli_demix t.servos
  match t.data_reply with
  | some snap => ({ s1 with state := snap }, reqs ++ [SoapReq.exchange vals])
  | none => (s1, reqs ++ [SoapReq.exchange vals])

/-- The axis remap of line 251: local position is
`(remote Y, remote X, -altitude AGL)`. -/
def pos_of (st : Snapshot) : Vector3f :=
  ⟨st.m_aircraftPositionY_MTR, st.m_aircraftPositionX_MTR, -st.m_altitudeAGL_MTR⟩

/-- The Snapshot in effect after an exchange: the parsed reply, or the stale
previous Snapshot when the exchange failed. -/
def snap_after (r : Option Snapshot) (st : Snapshot) : Snapshot := r.getD st

/-- `FlightAxis::update` (lines 232–296).  The AP_Math collaborators
`Matrix3::from_euler` and `radians` are taken as parameters `fe` and `rad`:
the claims restrict only how their results are used, never their values. -/
def update (fe : ℚ → ℚ → ℚ → Matrix3f) (rad : ℚ → ℚ) (t : TickIn)
    (s : FlightAxisSt) : FlightAxisSt × List SoapReq :=
  let last_velocity_ef := s.velocity_ef
  let er := exchange_data t s
  let s1 := er.1
  let dt := (t.now - s1.last_time_us) * s1.target_speedup
  let dt_seconds := dt * (1 / 1000000)
  let st := s1.state
  let dcm := fe (rad st.m_roll_DEG) (rad st.m_inclination_DEG) (-(rad st.m_azimuth_DEG))
  let gyro := Vector3f.smul
    ⟨rad (constrain_float st.m_rollRate_DEGpSEC (-2000) 2000),
     rad (constrain_float st.m_pitchRate_DEGpSEC (-2000) 2000),
     -(rad (constrain_float st.m_yawRate_DEGpSEC (-2000) 2000))⟩ s1.target_speedup
  let velocity_ef : Vector3f :=
    ⟨st.m_velocityWorldU_MPS, st.m_velocityWorldV_MPS, st.m_velocityWorldW_MPS⟩
  let position0 := pos_of st
  let position_offset := if s1.position_offset.is_zero then position0 else s1.position_offset
  let position := position0.sub position_offset
  let accel_ef := (velocity_ef.sub last_velocity_ef).sdiv dt_seconds
  let accel_ef2 : Vector3f := ⟨accel_ef.x, accel_ef.y, accel_ef.z - GRAVITY_MSS⟩
  let ab := dcm.transposed.mulv accel_ef2
  let accel_body : Vector3f :=
    ⟨constrain_float ab.x (-16) 16, constrain_float ab.y (-16) 16,
     constrain_float ab.z (-16) 16⟩
  let time_now := s1.time_now_us + dt
  let last_frame_count :=
    if s1.frame_counter % 1000 = 0 then time_now else s1.last_frame_count_us
  ({ s1 with
      dcm := dcm,
      gyro := gyro,
      velocity_ef := velocity_ef,
      position := position,
      position_offset := position_offset,
      accel_body := accel_body,
      airspeed := st.m_airspeed_MPS,
      battery_voltage := st.m_batteryVoltage_VOLTS,
      battery_current := st.m_batteryCurrentDraw_AMPS,
      rpm1 := if s1.heli_demix then st.m_heliMainRotorRPM else st.m_propRPM,
      time_now_us := time_now,
      last_time_us := t.now,
      frame_counter := s1.frame_counter + 1,
      last_frame_count_us := last_frame_count }, er.2)

/-- A run of consecutive ticks: the final state and all requests issued. -/
def run (fe : ℚ → ℚ → ℚ → Matrix3f) (rad : ℚ → ℚ) :
    List TickIn → FlightAxisSt → FlightAxisSt × List SoapReq
  | [], s => (s, [])
  | t :: ts, s =>
    let r1 := update fe rad t s
    let r2 := run fe rad ts r1.1
    (r2.1, r1.2 ++ r2.2)

/-! ## C9 — acceleration derivation -/

def gravity_vec : Vector3f := ⟨0, 0, GRAVITY_MSS⟩

def clamp16 (v : Vector3f) : Vector3f :=
  ⟨constrain_float v.x (-16) 16, constrain_float v.y (-16) 16,
   constrain_float v.z (-16) 16⟩

/-- The acceleration exactly as the spec words it: world-frame velocity delta
divided by `dt_seconds`, minus the gravity vector, rotated into the body
frame by the transposed orientation matrix, each component clamped to ±16. -/
def accel_body_spec (m : Matrix3f) (v1 v0 : Vector3f) (dts : ℚ) : Vector3f :=
  clamp16 (m.transposed.mulv (((v1.sub v0).sdiv dts).sub gravity_vec))

def feI : ℚ → ℚ → ℚ → Matrix3f := fun _ _ _ => ⟨⟨1, 0, 0⟩, ⟨0, 1, 0⟩, ⟨0, 0, 1⟩⟩

def radI : ℚ → ℚ := fun q => q

def snap0 : Snapshot := ⟨0, 0, 0, 0, 0, 0, 0, 0, 0, 0, 0, 0, 0, 0, 0, 0, 0⟩

def snapB : Snapshot :=
  { snap0 with
    m_aircraftPositionX_MTR := 2,
    m_aircraftPositionY_MTR := 1,
    m_altitudeAGL_MTR := -3 }

def snapC : Snapshot :=
  { snap0 with
    m_aircraftPositionX_MTR := 5,
    m_aircraftPositionY_MTR := 4,
    m_altitudeAGL_MTR := -6 }

def st0 : FlightAxisSt :=
  ⟨snap0, ⟨⟨0, 0, 0⟩, ⟨0, 0, 0⟩, ⟨0, 0, 0⟩⟩, ⟨0, 0, 0⟩, ⟨0, 0, 0⟩, ⟨0, 0, 0⟩,
   ⟨0, 0, 0⟩, ⟨0, 0, 0⟩, 0, 0, 0, 0, 0, 0, 0, 1, 0, false, false, false⟩

def st1 : FlightAxisSt := { st0 with position_offset := pos_of snapB }

def svMid : Servos8 := ⟨1500, 1500, 1500, 1500, 1500, 1500, 1500, 1500⟩

/-! ## C5 — bootstrap idempotence -/

def is_restore : SoapReq → Bool
  | SoapReq.restore => true
  | _ => false

def is_inject : SoapReq → Bool
  | SoapReq.inject => true
  | _ => false

def is_exch : SoapReq → Bool
  | SoapReq.exchange _ => true
  | _ => false

def tick1w : TickIn := ⟨none, none, none, svMid, 1⟩

def tick2w : TickIn := ⟨none, none, some snapB, svMid, 2⟩

/-! ## Theorems -/

/-- Dropping a decomposed list up to and one past a marker character. -/
theorem drop_marker (l : List Char) (d : Char) (rest : List Char) :
    (l ++ d :: rest).drop (l.length + 1) = rest := by
  induction l with
  | nil => simp
  | cons c t ih =>
      simp only [List.cons_append, List.length_cons, List.drop_succ_cons]
      exact ih

example : strstr ("abcabc".toList) ("ca".toList) = some 2 := by decide

example : atof ("-2.25e1x".toList) = -22.5 := by decide

example : atof ("  .5".toList) = 1/2 := by decide

example : strtoul (" 9973\r\n".toList) = 9973 := by decide

example : parse_reply [("A".toList)] ("xyz".toList) = none := by decide

example : parse_reply [("A".toList), ("B".toList)] ("<A>1.5<B>-2.25".toList)
    = some [1.5, -2.25] := by decide

/-! ## C1 / C2 — the reply field parser -/

/-- C1 (amended): whenever the reply decomposes, in table order, into each
key immediately followed by a one-character delimiter and its numeric value,
*and* each key's designated occurrence is the first occurrence of that key at
or after the scanner's position, `parse_reply` scans strictly left to right
and writes exactly each key's following numeric value into that key's slot. -/
theorem parse_reply_round_trip (keys : List (List Char)) (reply : List Char)
    (vs : List ℚ) (h : GoodReply keys reply vs) :
    parse_reply keys reply = some vs := by
  induction h with
  | nil s => rfl
  | cons k ks pre d rest v vs hfind hval _ ih =>
      have hlen : (pre ++ k ++ d :: rest).length = pre.length + k.length + 1 + rest.length := by
        simp [List.length_append]
        omega
      have hdrop : (pre ++ k ++ d :: rest).drop (pre.length + k.length + 1) = rest := by
        have h2 := drop_marker (pre ++ k) d rest
        simpa [List.append_assoc, List.length_append] using h2
      simp only [parse_reply, hfind, hlen, hdrop, ih, hval]
      have hnot : ¬ (pre.length + k.length + 1 + rest.length < pre.length + k.length + 1) := by
        omega
      simp [hnot]

/-- Witness for C1: a concrete two-key reply, parsed to exactly the two
designated values. -/
theorem parse_reply_round_trip_witness :
    parse_reply [keyA, keyB] replyGood = some [1.5, -2.25] := by
  have h2 : GoodReply [keyB] ("1.5<B>-2.25".toList) [-2.25] := by
    have e : ("1.5<B>-2.25".toList)
        = ("1.5<".toList) ++ keyB ++ (Char.ofNat 62) :: ("-2.25".toList) := by decide
    rw [e]
    exact GoodReply.cons keyB [] ("1.5<".toList) (Char.ofNat 62) ("-2.25".toList)
      (-2.25) [] (by decide) (by decide) (GoodReply.nil _)
  have h1 : GoodReply [keyA, keyB] replyGood [1.5, -2.25] := by
    have e : replyGood
        = ("<".toList) ++ keyA ++ (Char.ofNat 62) :: ("1.5<B>-2.25".toList) := by decide
    rw [e]
    exact GoodReply.cons keyA [keyB] ("<".toList) (Char.ofNat 62)
      ("1.5<B>-2.25".toList) 1.5 [-2.25] (by decide) (by decide) h2
  exact parse_reply_round_trip [keyA, keyB] replyGood [1.5, -2.25] h1

/-- Counterexample to C1 as stated: the reply contains `A` then `B`, in table
order, each immediately followed by a one-character delimiter and a decimal
numeric value (`A:1` and `B:2`), yet the scanner latches onto the stray
earlier occurrence of `B` (in `Bx`) and stores `0`, not `2`, in `B`'s slot. -/
theorem parse_reply_order_ce :
    ContainsOrdered [keyA, keyB] replyStray [1, 2] ∧
      parse_reply [keyA, keyB] replyStray ≠ some [1, 2] := by
  constructor
  · have h2 : ContainsOrdered [keyB] ("1 Bx B:2".toList) [2] := by
      have e : ("1 Bx B:2".toList)
          = ("1 Bx ".toList) ++ keyB ++ (Char.ofNat 58) :: ("2".toList) := by decide
      rw [e]
      exact ContainsOrdered.cons keyB [] ("1 Bx ".toList) (Char.ofNat 58)
        ("2".toList) 2 [] (by decide) (ContainsOrdered.nil _)
    have e : replyStray = ([] : List Char) ++ keyA ++ (Char.ofNat 58) :: ("1 Bx B:2".toList) := by
      decide
    rw [e]
    exact ContainsOrdered.cons keyA [keyB] [] (Char.ofNat 58)
      ("1 Bx B:2".toList) 1 [2] (by decide) h2
  · decide

/-- C2: on a reply in which the key is absent, `parse_reply` does *not*
continue scanning inside the reply: having found no occurrence of the key it
advances the null `strstr` result by `strlen(key)+1` and reads there, an
out-of-bounds access (modelled by `none`). -/
theorem parse_reply_missing_key_oob :
    strstr replyNoKey keyA = none ∧ parse_reply [keyA] replyNoKey = none := by
  exact ⟨by decide, by decide⟩

theorem recv_loop_complete (expected : ℕ) (hcap : expected ≤ MAXR - 1)
    (chunks : List (List Char)) :
    ∀ buf : List Char, (∀ c ∈ chunks, c ≠ []) →
      (buf ++ chunks.flatten).length = expected →
      recv_loop expected chunks buf = some (buf ++ chunks.flatten) := by
  induction chunks with
  | nil =>
      intro buf _ hlen
      simp only [List.flatten_nil, List.append_nil] at hlen ⊢
      simp [recv_loop, Nat.le_of_eq hlen.symm]
  | cons c cs ih =>
      intro buf hne hlen
      have hc : c ≠ [] := hne c (by simp)
      have hclen : 0 < c.length := List.length_pos.mpr hc
      have hlen2 : buf.length + (c.length + cs.flatten.length) = expected := by
        simpa only [List.flatten_cons, List.length_append] using hlen
      have hlt : ¬ expected ≤ buf.length := by omega
      have htake : c.take (MAXR - 1 - buf.length) = c := by
        apply List.take_of_length_le
        omega
      have hres := ih (buf ++ c) (fun x hx => hne x (by simp [hx]))
        (by simp only [List.length_append]; omega)
      simp only [recv_loop, hlt, if_false, htake]
      have hcne : ¬ c.length = 0 := by omega
      simp only [hcne, if_false, List.flatten_cons, List.append_assoc] at hres ⊢
      exact hres

theorem recv_loop_deficient (expected : ℕ) (hcap : expected ≤ MAXR - 1)
    (rest2 : List (List Char)) (pre : List (List Char)) :
    ∀ buf : List Char, (∀ c ∈ pre, c ≠ []) →
      buf.length + pre.flatten.length < expected →
      recv_loop expected (pre ++ [] :: rest2) buf = none := by
  induction pre with
  | nil =>
      intro buf _ hlen
      simp only [List.flatten_nil, List.length_nil, Nat.add_zero] at hlen
      have hlt : ¬ expected ≤ buf.length := by omega
      simp [recv_loop, hlt]
  | cons c cs ih =>
      intro buf hne hlen
      have hc : c ≠ [] := hne c (by simp)
      have hclen : 0 < c.length := List.length_pos.mpr hc
      have hflat : buf.length + (c.length + cs.flatten.length) < expected := by
        simpa [List.flatten_cons, List.length_append] using hlen
      have hlt : ¬ expected ≤ buf.length := by omega
      have htl : (c.take (MAXR - 1 - buf.length)).length
          = min (MAXR - 1 - buf.length) c.length := List.length_take ..
      have hc2 : ¬ (c.take (MAXR - 1 - buf.length)).length = 0 := by
        rw [htl]; omega
      have hres := ih (buf ++ c.take (MAXR - 1 - buf.length))
        (fun x hx => hne x (by simp [hx]))
        (by simp only [List.length_append, htl]; omega)
      simp only [List.cons_append, recv_loop, hlt, if_false, hc2]
      exact hres

theorem recv_loop_peak_le (expected : ℕ) (chunks : List (List Char)) :
    ∀ buf : List Char, buf.length ≤ MAXR - 1 →
      recv_loop_peak expected chunks buf ≤ MAXR - 1 := by
  induction chunks with
  | nil =>
      intro buf hb
      simp only [recv_loop_peak]
      split <;> exact hb
  | cons c cs ih =>
      intro buf hb
      simp only [recv_loop_peak]
      split
      · exact hb
      · have htl : (c.take (MAXR - 1 - buf.length)).length
            = min (MAXR - 1 - buf.length) c.length := List.length_take ..
        split
        · exact hb
        · exact ih (buf ++ c.take (MAXR - 1 - buf.length))
            (by simp only [List.length_append, htl]; omega)

/-- Shared unfolding: when data arrives and the header scan yields an
in-bounds expected length, reception is exactly the continuation loop. -/
theorem soap_request_rx_proceeds (first : List Char) (conts : List (List Char))
    (expected : ℕ) (h0 : (first.take (MAXR - 1)).length ≠ 0)
    (h1 : header_scan (first.take (MAXR - 1)) = some expected)
    (hlt : expected < MAXR) :
    soap_request_rx first conts = recv_loop expected conts (first.take (MAXR - 1)) := by
  have hge : ¬ MAXR ≤ expected := by omega
  simp only [soap_request_rx, h0, if_false, h1, hge]

/-! ## C6 / C7 — oversized-reply rejection and framing reconstruction -/

/-- C6 (amended): given that the first receive yields data and the header
scan computes an expected total `expected` (declared content length plus
header-to-body offset, in 32-bit arithmetic), reception aborts before any
continuation receive exactly when `expected ≥ 10000` — i.e. when the reply
cannot fit in the 10000-byte buffer together with its NUL terminator — and
otherwise proceeds to the continuation loop; in every case the buffer never
holds more than 9999 bytes. -/
theorem soap_request_size_check (first : List Char) (conts : List (List Char))
    (expected : ℕ) (h0 : (first.take (MAXR - 1)).length ≠ 0)
    (h1 : header_scan (first.take (MAXR - 1)) = some expected) :
    (MAXR ≤ expected → soap_request_rx first conts = none) ∧
    (expected < MAXR →
      soap_request_rx first conts = recv_loop expected conts (first.take (MAXR - 1))) ∧
    recv_loop_peak expected conts (first.take (MAXR - 1)) ≤ MAXR - 1 := by
  refine ⟨?_, ?_, ?_⟩
  · intro hge
    simp only [soap_request_rx, h0, if_false, h1, hge, if_true]
  · intro hlt
    exact soap_request_rx_proceeds first conts expected h0 h1 hlt
  · refine recv_loop_peak_le expected conts _ ?_
    have h := List.length_take (MAXR - 1) first
    omega

/-- Witness for C6: a complete 29-byte reply (24 header bytes and a 5-byte
body), below the cap, proceeds to the continuation loop. -/
theorem soap_request_size_check_witness :
    soap_request_rx wHeader [] = recv_loop 29 [] (wHeader.take (MAXR - 1)) ∧
    recv_loop_peak 29 [] (wHeader.take (MAXR - 1)) ≤ MAXR - 1 := by
  have h := soap_request_size_check wHeader [] 29 (by decide) (by decide)
  exact ⟨h.2.1 (by decide), h.2.2⟩

/-- Counterexample to C6 as stated: a reply declaring 9973 content bytes
after a 27-byte header has `content length + offset = 10000`, which does
*not* exceed the 10000-byte buffer, yet reception fails (the check on line
129 is `>=`, as the terminator also needs a byte) even though the scripted
continuation chunk would deliver the whole body. -/
theorem soap_size_boundary_ce :
    header_scan ceHeader = some 10000 ∧
    ¬ MAXR < 10000 ∧
    soap_request_rx ceHeader [List.replicate 9973 (Char.ofNat 120)] = none :=
  ⟨by decide, by decide, by decide⟩

/-- C7: a well-formed reply (total bytes = expected total, within the cap)
delivered across any script of positive partial receives reconstructs to the
same accumulated buffer as a single-receive delivery of the same bytes; and
a non-positive continuation receive arriving while fewer than the expected
bytes have accumulated makes the reception fail. -/
theorem soap_request_framing (first : List Char) (conts pre rest2 : List (List Char))
    (expected : ℕ)
    (hcap : expected ≤ MAXR - 1)
    (hflen : first.length ≤ MAXR - 1)
    (h0 : first ≠ [])
    (h1 : header_scan first = some expected)
    (h2 : header_scan (first ++ conts.flatten) = some expected)
    (hlen : (first ++ conts.flatten).length = expected)
    (hne : ∀ c ∈ conts, c ≠ [])
    (hlen2 : first.length + pre.flatten.length < expected)
    (hne2 : ∀ c ∈ pre, c ≠ []) :
    soap_request_rx first conts = some (first ++ conts.flatten) ∧
    soap_request_rx (first ++ conts.flatten) [] = some (first ++ conts.flatten) ∧
    soap_request_rx first (pre ++ [] :: rest2) = none := by
  have hM : MAXR = 10000 := rfl
  have hlt : expected < MAXR := by omega
  have htake1 : first.take (MAXR - 1) = first := List.take_of_length_le hflen
  have h0l : (first.take (MAXR - 1)).length ≠ 0 := by
    rw [htake1]
    have := List.length_pos.mpr h0
    omega
  have h1t : header_scan (first.take (MAXR - 1)) = some expected := by rw [htake1]; exact h1
  have hfull_len : (first ++ conts.flatten).length ≤ MAXR - 1 := by rw [hlen]; exact hcap
  have htake2 : (first ++ conts.flatten).take (MAXR - 1) = first ++ conts.flatten :=
    List.take_of_length_le hfull_len
  refine ⟨?_, ?_, ?_⟩
  · rw [soap_request_rx_proceeds first conts expected h0l h1t hlt, htake1]
    exact recv_loop_complete expected hcap conts first hne hlen
  · have h0l2 : ((first ++ conts.flatten).take (MAXR - 1)).length ≠ 0 := by
      rw [htake2]
      have h3 := List.length_pos.mpr h0
      have h4 : first.length ≤ (first ++ conts.flatten).length := by
        simp [List.length_append]
      omega
    have h2t : header_scan ((first ++ conts.flatten).take (MAXR - 1)) = some expected := by
      rw [htake2]; exact h2
    rw [soap_request_rx_proceeds _ [] expected h0l2 h2t hlt, htake2]
    have hle : expected ≤ (first ++ conts.flatten).length := by omega
    simp only [recv_loop]
    rw [if_pos hle]
  · rw [soap_request_rx_proceeds _ _ expected h0l h1t hlt, htake1]
    exact recv_loop_deficient expected hcap rest2 pre first hne2 hlen2

/-- Witness for C7: the 29-byte reply of `wHeader` delivered as a 24-byte
header receive plus two continuation chunks reconstructs identically to the
single-receive delivery, and a premature non-positive receive fails. -/
theorem soap_request_framing_witness :
    soap_request_rx wHeaderOnly [wBody1, wBody2] = some (wHeaderOnly ++ [wBody1, wBody2].flatten) ∧
    soap_request_rx (wHeaderOnly ++ [wBody1, wBody2].flatten) []
      = some (wHeaderOnly ++ [wBody1, wBody2].flatten) ∧
    soap_request_rx wHeaderOnly ([wBody1] ++ [] :: []) = none := by
  have h := soap_request_framing wHeaderOnly [wBody1, wBody2] [wBody1] [] 29
    (by decide) (by decide) (by decide) (by decide) (by decide) (by decide)
    (by decide) (by decide) (by decide)
  exact h

/-! ## C8 — rotary-wing demix -/

/-- C8: with the rotary-wing demix flag set (and the rev4 block swap unset),
for normalized values `si = (pi - 1000)/1000` the mapper outputs
`out0 = clamp((s0 - s1) + 0.5, 0, 1)` and
`out1 = clamp(-((s0 + s1)/2 - s2) + 0.5, 0, 1)`, and every other channel —
including index 2 — is its normalized input unchanged. -/
theorem scaled_servos_heli_demix (p : Servos8) :
    scaled_servos false true p =
      ⟨constrain_float (((p.c0 - 1000) / 1000 - (p.c1 - 1000) / 1000) + 0.5) 0 1,
       constrain_float
         (-(((p.c0 - 1000) / 1000 + (p.c1 - 1000) / 1000) / 2 - (p.c2 - 1000) / 1000) + 0.5) 0 1,
       (p.c2 - 1000) / 1000, (p.c3 - 1000) / 1000, (p.c4 - 1000) / 1000,
       (p.c5 - 1000) / 1000, (p.c6 - 1000) / 1000, (p.c7 - 1000) / 1000⟩ := rfl

/-! ## C3 — stale state on a failed exchange -/

/-- C3: on a tick whose SOAP exchange fails at any stage (`data_reply = none`),
every Snapshot destination keeps its value from the previous tick, while the
tick still advances the simulated time accumulator by
`dt = (now - last_time) * speedup` and updates the last-observed wall-clock
timestamp to `now`. -/
theorem update_failed_exchange (fe : ℚ → ℚ → ℚ → Matrix3f) (rad : ℚ → ℚ)
    (rr ir : Option (List Char)) (sv : Servos8) (now : ℚ) (s : FlightAxisSt) :
    (update fe rad ⟨rr, ir, none, sv, now⟩ s).1.state = s.state ∧
    (update fe rad ⟨rr, ir, none, sv, now⟩ s).1.time_now_us
      = s.time_now_us + (now - s.last_time_us) * s.target_speedup ∧
    (update fe rad ⟨rr, ir, none, sv, now⟩ s).1.last_time_us = now :=
  ⟨rfl, rfl, rfl⟩

/-! ## C10 — the origin-capture guard -/

/-- C10: the origin capture is guarded solely by the stored offset being the
zero vector, never by a first-tick or first-success latch: after any tick —
exchange failed or not — the stored offset is this tick's computed position
(taken from the possibly stale Snapshot) when the old offset was zero, and
is unchanged otherwise.  In particular a zero computed position leaves the
capture pending, and a captured non-zero origin is never modified. -/
theorem update_offset_guard (fe : ℚ → ℚ → ℚ → Matrix3f) (rad : ℚ → ℚ)
    (t : TickIn) (s : FlightAxisSt) :
    (update fe rad t s).1.position_offset =
      if s.position_offset.is_zero then pos_of (snap_after t.data_reply s.state)
      else s.position_offset := by
  cases h : t.data_reply <;>
    simp [update, exchange_data, snap_after, h]

/-- C9: on every tick the reported body-frame acceleration equals
`accel_body_spec` evaluated at the orientation matrix built from the parsed
attitude, the parsed world velocity, the previous tick's world velocity, and
`dt_seconds`. -/
theorem update_accel_body (fe : ℚ → ℚ → ℚ → Matrix3f) (rad : ℚ → ℚ)
    (t : TickIn) (s : FlightAxisSt) :
    (update fe rad t s).1.accel_body =
      accel_body_spec
        (fe (rad (snap_after t.data_reply s.state).m_roll_DEG)
            (rad (snap_after t.data_reply s.state).m_inclination_DEG)
            (-(rad (snap_after t.data_reply s.state).m_azimuth_DEG)))
        ⟨(snap_after t.data_reply s.state).m_velocityWorldU_MPS,
         (snap_after t.data_reply s.state).m_velocityWorldV_MPS,
         (snap_after t.data_reply s.state).m_velocityWorldW_MPS⟩
        s.velocity_ef
        ((t.now - s.last_time_us) * s.target_speedup * (1 / 1000000)) := by
  cases h : t.data_reply <;>
    · simp only [update, exchange_data, snap_after, h, Option.getD_some, Option.getD_none,
        accel_body_spec, clamp16, gravity_vec, Matrix3f.transposed, Matrix3f.mulv,
        Vector3f.sub, Vector3f.sdiv, Vector3f.mk.injEq]
      refine ⟨?_, ?_, ?_⟩ <;> ring_nf

/-! ## C4 — position-origin capture -/

theorem is_zero_iff (v : Vector3f) : v.is_zero = true ↔ v = ⟨0, 0, 0⟩ := by
  cases v
  simp [Vector3f.is_zero, Vector3f.mk.injEq, and_assoc]

/-- C4 (amended): the first successfully parsed position becomes the stored
origin *provided it is non-zero* (a zero first position leaves the capture
pending); on the capture tick the reported position is the zero vector, and
on every later tick carrying that stored non-zero origin the reported
position is exactly the tick's remapped world position minus the origin. -/
theorem update_origin_capture (fe : ℚ → ℚ → ℚ → Matrix3f) (rad : ℚ → ℚ)
    (rr ir : Option (List Char)) (sv : Servos8) (now : ℚ) (snap : Snapshot)
    (s : FlightAxisSt)
    (h0 : s.position_offset = ⟨0, 0, 0⟩)
    (h1 : pos_of snap ≠ ⟨0, 0, 0⟩) :
    (update fe rad ⟨rr, ir, some snap, sv, now⟩ s).1.position_offset = pos_of snap ∧
    (update fe rad ⟨rr, ir, some snap, sv, now⟩ s).1.position = ⟨0, 0, 0⟩ ∧
    ∀ (fe2 : ℚ → ℚ → ℚ → Matrix3f) (rad2 : ℚ → ℚ) (t2 : TickIn) (s2 : FlightAxisSt),
      s2.position_offset = pos_of snap →
      (update fe2 rad2 t2 s2).1.position
        = (pos_of (snap_after t2.data_reply s2.state)).sub (pos_of snap) := by
  have h0z : s.position_offset.is_zero = true := (is_zero_iff _).mpr h0
  refine ⟨?_, ?_, ?_⟩
  · simp [update, exchange_data, h0z]
  · simp [update, exchange_data, h0z, Vector3f.sub]
  · intro fe2 rad2 t2 s2 h2
    have hsz : (pos_of snap).is_zero = false := by
      cases hz : (pos_of snap).is_zero
      · rfl
      · exact absurd ((is_zero_iff _).mp hz) h1
    have h2z : s2.position_offset.is_zero = false := by rw [h2]; exact hsz
    cases h : t2.data_reply <;>
      simp [update, exchange_data, snap_after, h, h2z, h2, hsz]

/-- Witness for C4: capturing the non-zero first position `(1, 2, 3)` zeroes
that tick's report, and a later tick reports `P - (1, 2, 3)` exactly. -/
theorem update_origin_capture_witness :
    (update feI radI ⟨none, none, some snapB, svMid, 1⟩ st0).1.position_offset
      = pos_of snapB ∧
    (update feI radI ⟨none, none, some snapB, svMid, 1⟩ st0).1.position = ⟨0, 0, 0⟩ ∧
    (update feI radI ⟨none, none, some snapC, svMid, 2⟩ st1).1.position
      = (pos_of (snap_after (some snapC) st1.state)).sub (pos_of snapB) := by
  have h := update_origin_capture feI radI none none svMid 1 snapB st0
    (by decide) (by decide)
  exact ⟨h.1, h.2.1, h.2.2 feI radI ⟨none, none, some snapC, svMid, 2⟩ st1 (by decide)⟩

/-- Counterexample to C4 as stated: when the *first* successfully parsed
position is the zero vector, it does not become the origin; the next tick's
non-zero position `(1, 2, 3)` is captured instead, and the reported position
on that tick is `(0, 0, 0)` — not `P - origin = (1, 2, 3)` as the claim
requires. -/
theorem update_origin_ce :
    (run feI radI [⟨none, none, some snap0, svMid, 1⟩,
        ⟨none, none, some snapB, svMid, 2⟩] st0).1.position = ⟨0, 0, 0⟩ ∧
    (pos_of snapB).sub (pos_of snap0) = ⟨1, 2, 3⟩ ∧
    (⟨0, 0, 0⟩ : Vector3f) ≠ ⟨1, 2, 3⟩ :=
  ⟨by decide, by decide, by decide⟩

theorem update_fields (fe : ℚ → ℚ → ℚ → Matrix3f) (rad : ℚ → ℚ)
    (t : TickIn) (s : FlightAxisSt) :
    (update fe rad t s).1.controller_started = true ∧
    (update fe rad t s).1.rev4_servos = s.rev4_servos ∧
    (update fe rad t s).1.heli_demix = s.heli_demix := by
  cases h : t.data_reply <;> simp [update, exchange_data, h]

theorem update_reqs_false (fe : ℚ → ℚ → ℚ → Matrix3f) (rad : ℚ → ℚ)
    (t : TickIn) (s : FlightAxisSt) (hs : s.controller_started = false) :
    (update fe rad t s).2 =
      [SoapReq.restore, SoapReq.inject,
       SoapReq.exchange (scaled_servos s.rev4_servos s.heli_demix t.servos)] := by
  cases h : t.data_reply <;> simp [update, exchange_data, h, hs]

theorem update_reqs_true (fe : ℚ → ℚ → ℚ → Matrix3f) (rad : ℚ → ℚ)
    (t : TickIn) (s : FlightAxisSt) (hs : s.controller_started = true) :
    (update fe rad t s).2 =
      [SoapReq.exchange (scaled_servos s.rev4_servos s.heli_demix t.servos)] := by
  cases h : t.data_reply <;> simp [update, exchange_data, h, hs]

theorem run_started (fe : ℚ → ℚ → ℚ → Matrix3f) (rad : ℚ → ℚ) (ts : List TickIn) :
    ∀ s : FlightAxisSt, s.controller_started = true →
      (run fe rad ts s).2
        = List.map (fun ti => SoapReq.exchange
            (scaled_servos s.rev4_servos s.heli_demix ti.servos)) ts ∧
      (run fe rad ts s).1.controller_started = true := by
  induction ts with
  | nil => intro s hs; exact ⟨rfl, hs⟩
  | cons t ts ih =>
      intro s hs
      obtain ⟨hstart, hrev, hheli⟩ := update_fields fe rad t s
      obtain ⟨hmap, hfin⟩ := ih (update fe rad t s).1 hstart
      refine ⟨?_, hfin⟩
      show (update fe rad t s).2 ++ (run fe rad ts (update fe rad t s).1).2 = _
      rw [update_reqs_true fe rad t s hs, hmap, hrev, hheli]
      rfl

/-- C5: over any `N ≥ 1` consecutive ticks of a freshly constructed
connector, the two administrative requests are issued exactly once each, on
the first tick only; every tick — the first included — issues exactly one
`ExchangeData` request (none is skipped because of bootstrap); and the
session latch is Bootstrapped after the first tick and never resets, no
matter the outcome of any request (all reply fields of every tick are
universally quantified, failed administrative requests included). -/
theorem bootstrap_once (fe : ℚ → ℚ → ℚ → Matrix3f) (rad : ℚ → ℚ)
    (t : TickIn) (ts : List TickIn) (s : FlightAxisSt)
    (hs : s.controller_started = false) :
    (run fe rad (t :: ts) s).2
      = SoapReq.restore :: SoapReq.inject ::
          SoapReq.exchange (scaled_servos s.rev4_servos s.heli_demix t.servos) ::
          List.map (fun ti => SoapReq.exchange
            (scaled_servos s.rev4_servos s.heli_demix ti.servos)) ts ∧
    (run fe rad (t :: ts) s).1.controller_started = true ∧
    (run fe rad (t :: ts) s).2.countP is_restore = 1 ∧
    (run fe rad (t :: ts) s).2.countP is_inject = 1 ∧
    (run fe rad (t :: ts) s).2.countP is_exch = ts.length + 1 := by
  obtain ⟨hstart, hrev, hheli⟩ := update_fields fe rad t s
  obtain ⟨hmap, hfin⟩ := run_started fe rad ts (update fe rad t s).1 hstart
  have h2 : (run fe rad (t :: ts) s).2
      = (update fe rad t s).2 ++ (run fe rad ts (update fe rad t s).1).2 := rfl
  have hlist : (run fe rad (t :: ts) s).2
      = SoapReq.restore :: SoapReq.inject ::
          SoapReq.exchange (scaled_servos s.rev4_servos s.heli_demix t.servos) ::
          List.map (fun ti => SoapReq.exchange
            (scaled_servos s.rev4_servos s.heli_demix ti.servos)) ts := by
    rw [h2, update_reqs_false fe rad t s hs, hmap, hrev, hheli]
    rfl
  refine ⟨hlist, hfin, ?_, ?_, ?_⟩ <;>
    simp [hlist, List.countP_cons, List.countP_map, is_restore, is_inject, is_exch,
      Function.comp]

/-- Witness for C5: a fresh two-tick run — administrative replies absent and
the first exchange failed — still issues restore and inject exactly once, on
tick one, one `ExchangeData` per tick, and latches the session. -/
theorem bootstrap_once_witness :
    (run feI radI [tick1w, tick2w] st0).2
      = SoapReq.restore :: SoapReq.inject ::
          SoapReq.exchange (scaled_servos st0.rev4_servos st0.heli_demix tick1w.servos) ::
          List.map (fun ti => SoapReq.exchange
            (scaled_servos st0.rev4_servos st0.heli_demix ti.servos)) [tick2w] ∧
    (run feI radI [tick1w, tick2w] st0).1.controller_started = true := by
  have h := bootstrap_once feI radI tick1w [tick2w] st0 (by decide)
  exact ⟨h.1, h.2.1⟩
